import Mathlib

/-!
Verification of the resume-upload form controller
(`src/components/ResumeUploadForm.tsx`).

The component's state and event handlers are embedded shallowly:
React `useState` cells become fields of a `FormState` record, each
handler becomes a pure function from state to state (returning, where
relevant, the number of rejection notices emitted through the toast
collaborator), and JavaScript string/regex operations are modelled
character by character.
-/

/-- The JavaScript `\s` character class (also the character set removed by
`String.prototype.trim`): ASCII whitespace, NBSP, BOM and the Unicode
space separators. -/
def jsWhitespace (c : Char) : Bool :=
  c = ' ' || c = '\t' || c = '\n' || c = '\r' || c = '\x0b' || c = '\x0c' ||
  c = '\u00A0' || c = '\u1680' || ('\u2000' ≤ c && c ≤ '\u200A') ||
  c = '\u2028' || c = '\u2029' || c = '\u202F' || c = '\u205F' ||
  c = '\u3000' || c = '\uFEFF'

/-- `value.trim()`: remove leading and trailing JS whitespace. -/
def jsTrim (s : String) : String :=
  String.mk (((s.toList.dropWhile jsWhitespace).reverse.dropWhile jsWhitespace).reverse)

/-- `value.replace(/\s/g, "")`: remove every JS whitespace character. -/
def stripJsWs (s : String) : String :=
  String.mk (s.toList.filter (fun c => !jsWhitespace c))

/-- Executable form of the test `/^[^\s@]+@[^\s@]+\.[^\s@]+$/.test s`:
the string splits as `a ++ "@" ++ b` where `a` is nonempty with no
whitespace and no `@`, `b` is nonempty with no whitespace and no `@`,
and `b` contains a dot that is neither its first nor its last character
(the part of `b` before that dot is the `[^\s@]+` before `\.`, the part
after it the final `[^\s@]+`; both may themselves contain dots since
`.` lies in `[^\s@]`). -/
def emailRegexTest (s : String) : Bool :=
  let cs := s.toList
  let a := cs.takeWhile (fun c => c ≠ '@')
  match cs.dropWhile (fun c => c ≠ '@') with
  | [] => false
  | _ :: b =>
      !a.isEmpty && a.all (fun c => !jsWhitespace c) &&
      !b.contains '@' && b.all (fun c => !jsWhitespace c) &&
      ((b.drop 1).dropLast).contains '.'

/-- One character of the class `[\d\s\-\+\(\)]` from the phone regex. -/
def phoneCharOk (c : Char) : Bool :=
  c.isDigit || jsWhitespace c || c = '-' || c = '+' || c = '(' || c = ')'

/-- Executable form of `/^[\d\s\-\+\(\)]{10,20}$/.test s`. -/
def phoneRegexTest (s : String) : Bool :=
  let cs := s.toList
  decide (10 ≤ cs.length) && decide (cs.length ≤ 20) && cs.all phoneCharOk

/-- A selected file: name, MIME type and byte size (the `File` fields the
component reads). -/
structure FileRec where
  name : String
  type : String
  size : Nat
deriving DecidableEq, Repr

/-- The whitelist from `isValidFileType`. -/
def validTypes : List String :=
  ["application/pdf",
   "application/msword",
   "application/vnd.openxmlformats-officedocument.wordprocessingml.document"]

/-- `isValidFileType`: whitelisted MIME type and size at most 5 MB. -/
def isValidFileType (f : FileRec) : Bool :=
  validTypes.contains f.type && decide (f.size ≤ 5 * 1024 * 1024)

/-- `validateField(field, value)`: the per-field validation switch.
`!value.trim()` is empty-after-trim; `!value` is the empty string. -/
def validateField (field : String) (value : String) : Option String :=
  match field with
  | "firstName" =>
      if jsTrim value = "" then some "First name is required"
      else if value.length < 2 then some "First name must be at least 2 characters"
      else if value.length > 50 then some "First name must be less than 50 characters"
      else none
  | "lastName" =>
      if jsTrim value = "" then some "Last name is required"
      else if value.length < 2 then some "Last name must be at least 2 characters"
      else if value.length > 50 then some "Last name must be less than 50 characters"
      else none
  | "email" =>
      if jsTrim value = "" then some "Email is required"
      else if !emailRegexTest value then some "Please enter a valid email address"
      else none
  | "phone" =>
      if jsTrim value = "" then some "Phone number is required"
      else if !phoneRegexTest (stripJsWs value) then some "Please enter a valid phone number"
      else none
  | "location" =>
      if jsTrim value = "" then some "Location is required"
      else if value.length < 3 then some "Please enter a valid location"
      else none
  | "jobTitle" =>
      if jsTrim value = "" then some "Job title is required"
      else if value.length < 2 then some "Job title must be at least 2 characters"
      else none
  | "experience" =>
      if value = "" then some "Please select your experience level"
      else none
  | "skills" =>
      if jsTrim value = "" then some "Skills are required"
      else if value.length < 5 then some "Please enter at least a few skills"
      else none
  | _ => none

/-- `type UploadMode = "single" | "bulk"`. -/
inductive UploadMode where
  | single
  | bulk
deriving DecidableEq, Repr

/-- The string tag a mode contributes to the payload. -/
def modeTag : UploadMode → String
  | .single => "single"
  | .bulk => "bulk"

/-- The `formData` record: nine string-valued fields. -/
structure FormData where
  firstName : String
  lastName : String
  email : String
  phone : String
  location : String
  jobTitle : String
  experience : String
  skills : String
  summary : String
deriving DecidableEq, Repr

/-- `formData` as initialised (and as reset after a successful submission). -/
def emptyFormData : FormData :=
  ⟨"", "", "", "", "", "", "", "", ""⟩

/-- The `errors` record (`FormErrors`): a present key is `some message`. -/
structure FormErrors where
  firstName : Option String
  lastName : Option String
  email : Option String
  phone : Option String
  location : Option String
  jobTitle : Option String
  experience : Option String
  skills : Option String
  resume : Option String
deriving DecidableEq, Repr

/-- The empty `errors` object `{}`. -/
def noErrors : FormErrors :=
  ⟨none, none, none, none, none, none, none, none, none⟩

/-- The `touched` record: which of the nine `formData` keys the user has
interacted with. -/
structure TouchedMap where
  firstName : Bool
  lastName : Bool
  email : Bool
  phone : Bool
  location : Bool
  jobTitle : Bool
  experience : Bool
  skills : Bool
  summary : Bool
deriving DecidableEq, Repr

/-- The empty `touched` object `{}`. -/
def noTouched : TouchedMap :=
  ⟨false, false, false, false, false, false, false, false, false⟩

/-- `allTouched`: every key of `formData` marked `true` (built in
`handleSubmit` by reducing over `Object.keys(formData)`). -/
def allTouched : TouchedMap :=
  ⟨true, true, true, true, true, true, true, true, true⟩

/-- The controller's `useState` cells relevant to form behaviour.
The preview cells (`previewFile`, `previewUrl`, `showPreview`) are
modelled separately together with the object-URL lifecycle. -/
structure FormState where
  isSubmitting : Bool
  dragOver : Bool
  uploadedFile : Option FileRec
  uploadedFiles : List FileRec
  uploadMode : UploadMode
  errors : FormErrors
  touched : TouchedMap
  formData : FormData
deriving DecidableEq, Repr

/-- `uploadMode === "single" ? uploadedFile : uploadedFiles.length > 0`
(as a truthiness test). -/
def hasFiles (s : FormState) : Bool :=
  match s.uploadMode with
  | .single => s.uploadedFile.isSome
  | .bulk => decide (s.uploadedFiles.length > 0)

/-- The `newErrors` object built by `validateForm`: every `formData` key
except `summary` is validated against the current value, and the
`resume` key is set when the mode's file-presence check fails. -/
def computeFormErrors (s : FormState) : FormErrors :=
  { firstName := validateField "firstName" s.formData.firstName
    lastName := validateField "lastName" s.formData.lastName
    email := validateField "email" s.formData.email
    phone := validateField "phone" s.formData.phone
    location := validateField "location" s.formData.location
    jobTitle := validateField "jobTitle" s.formData.jobTitle
    experience := validateField "experience" s.formData.experience
    skills := validateField "skills" s.formData.skills
    resume :=
      if hasFiles s then none
      else some (match s.uploadMode with
        | .single => "Please upload your resume"
        | .bulk => "Please upload at least one resume") }

/-- `Object.keys(newErrors).length === 0`: a key is present exactly when
its message is truthy, so emptiness is every entry being `none`. -/
def formErrorsEmpty (e : FormErrors) : Bool :=
  e.firstName.isNone && e.lastName.isNone && e.email.isNone &&
  e.phone.isNone && e.location.isNone && e.jobTitle.isNone &&
  e.experience.isNone && e.skills.isNone && e.resume.isNone

/-- `handleDrop`: the drop handler, given the dropped batch in order.
Returns the new state and the number of rejection notices shown.
In single mode `e.dataTransfer.files[0]` is tested; the `else` branch
(notice) also fires when the batch is empty, since `file` is then
`undefined`. In bulk mode the admitted files are appended and one
aggregate notice is shown when `invalidCount > 0`. -/
def handleDrop (batch : List FileRec) (s : FormState) : FormState × Nat :=
  let s := { s with dragOver := false }
  match s.uploadMode with
  | .single =>
      match batch.head? with
      | some f =>
          if isValidFileType f then
            ({ s with uploadedFile := some f,
                      errors := { s.errors with resume := none } }, 0)
          else (s, 1)
      | none => (s, 1)
  | .bulk =>
      let validFiles := batch.filter isValidFileType
      let invalidCount := batch.length - validFiles.length
      let s :=
        if validFiles.length > 0 then
          { s with uploadedFiles := s.uploadedFiles ++ validFiles,
                   errors := { s.errors with resume := none } }
        else s
      (s, if invalidCount > 0 then 1 else 0)

/-- `handleFileSelect`: the file-picker handler, given the chosen batch.
Identical to `handleDrop` except that `dragOver` is untouched and the
single-mode notice fires only when a first file exists and is invalid
(`else if (file)`). -/
def handleFileSelect (batch : List FileRec) (s : FormState) : FormState × Nat :=
  match s.uploadMode with
  | .single =>
      match batch.head? with
      | some f =>
          if isValidFileType f then
            ({ s with uploadedFile := some f,
                      errors := { s.errors with resume := none } }, 0)
          else (s, 1)
      | none => (s, 0)
  | .bulk =>
      let validFiles := batch.filter isValidFileType
      let invalidCount := batch.length - validFiles.length
      let s :=
        if validFiles.length > 0 then
          { s with uploadedFiles := s.uploadedFiles ++ validFiles,
                   errors := { s.errors with resume := none } }
        else s
      (s, if invalidCount > 0 then 1 else 0)

/-- `prev.filter((_, i) => i !== index)` — JavaScript `Array.filter`
with the element index, counting from `start`. -/
def filterWithIndex (p : Nat → FileRec → Bool) : List FileRec → Nat → List FileRec
  | [], _ => []
  | x :: xs, n =>
      if p n x then x :: filterWithIndex p xs (n + 1)
      else filterWithIndex p xs (n + 1)

/-- `removeFile(index)`: drop the bulk-list entry at `index`. -/
def removeFile (index : Nat) (s : FormState) : FormState :=
  { s with uploadedFiles :=
      filterWithIndex (fun i _ => decide (i ≠ index)) s.uploadedFiles 0 }

/-- `handleModeChange(mode)`: switch mode, drop all selected files, clear
the `resume` error. -/
def handleModeChange (mode : UploadMode) (s : FormState) : FormState :=
  { s with uploadMode := mode,
           uploadedFile := none,
           uploadedFiles := [],
           errors := { s.errors with resume := none } }

/-- The validation phase of `handleSubmit`: mark every `formData` key
touched, store the freshly computed `newErrors`, and decide whether
submission proceeds (`validateForm()` returned `true`, upon which
`setIsSubmitting(true)` runs). The returned flag is `true` exactly when
the Submitting state is entered. -/
def submitGate (s : FormState) : FormState × Bool :=
  let s1 := { s with touched := allTouched }
  let newErrors := computeFormErrors s
  let s2 := { s1 with errors := newErrors }
  if formErrorsEmpty newErrors then ({ s2 with isSubmitting := true }, true)
  else (s2, false)

/-- The form reset performed after a successful POST: all fields to the
empty string, both file cells cleared, `errors` and `touched` to `{}`. -/
def resetAfterSuccess (s : FormState) : FormState :=
  { s with formData := emptyFormData,
           uploadedFile := none,
           uploadedFiles := [],
           errors := noErrors,
           touched := noTouched }

/-- `handleSubmit` end to end, with the transport outcome supplied as
`transportOk` (`response.ok`; a thrown error or rejected fetch is
`transportOk = false`, both land in the same `catch`). The `finally`
clause restores `isSubmitting := false` whenever submission was
entered. -/
def submitAttempt (transportOk : Bool) (s : FormState) : FormState :=
  let gated := submitGate s
  if gated.2 then
    let after := if transportOk then resetAfterSuccess gated.1 else gated.1
    { after with isSubmitting := false }
  else gated.1

/-- A value appended to the multipart `FormData` body: a string or a file. -/
inductive PayloadValue where
  | str (value : String)
  | file (f : FileRec)
deriving DecidableEq, Repr

/-- The multipart body assembled by `handleSubmit` once validation has
passed: the trimmed text fields (`experience` untrimmed), the mode tag,
then either the single `resume` entry (single mode with a file present)
or the indexed `resume_i` entries followed by `resumeCount`. -/
def buildPayload (s : FormState) : List (String × PayloadValue) :=
  let base : List (String × PayloadValue) :=
    [("firstName", .str (jsTrim s.formData.firstName)),
     ("lastName", .str (jsTrim s.formData.lastName)),
     ("email", .str (jsTrim s.formData.email)),
     ("phone", .str (jsTrim s.formData.phone)),
     ("location", .str (jsTrim s.formData.location)),
     ("jobTitle", .str (jsTrim s.formData.jobTitle)),
     ("experience", .str s.formData.experience),
     ("skills", .str (jsTrim s.formData.skills)),
     ("summary", .str (jsTrim s.formData.summary)),
     ("uploadMode", .str (modeTag s.uploadMode))]
  match s.uploadMode, s.uploadedFile with
  | .single, some f => base ++ [("resume", .file f)]
  | _, _ =>
      base ++
      (s.uploadedFiles.enum.map
        (fun p => ("resume_" ++ toString p.1, PayloadValue.file p.2))) ++
      [("resumeCount", .str (toString s.uploadedFiles.length))]

/-- The preview substate together with an audit log of object-URL
acquisitions (`URL.createObjectURL`) and releases
(`URL.revokeObjectURL`). Handles are numbered consecutively. -/
structure PreviewState where
  previewUrl : Option Nat
  previewFile : Option FileRec
  showPreview : Bool
  nextUrl : Nat
  acquired : List Nat
  released : List Nat
deriving DecidableEq, Repr

/-- The initial preview state: no session, nothing acquired. -/
def previewInit : PreviewState :=
  ⟨none, none, false, 0, [], []⟩

/-- Append one `revokeObjectURL` call to the log. -/
def revokeUrl (u : Nat) (s : PreviewState) : PreviewState :=
  { s with released := s.released ++ [u] }

/-- The body of `openPreview(file)`: revoke the current handle if one is
live, create a fresh one, and activate the session. -/
def openPreviewBody (f : FileRec) (s : PreviewState) : PreviewState :=
  let s :=
    match s.previewUrl with
    | some u => revokeUrl u s
    | none => s
  { s with previewUrl := some s.nextUrl,
           nextUrl := s.nextUrl + 1,
           acquired := s.acquired ++ [s.nextUrl],
           previewFile := some f,
           showPreview := true }

/-- The body of `closePreview()`: hide the dialog, revoke and clear the
handle if one is live, clear the file. -/
def closePreviewBody (s : PreviewState) : PreviewState :=
  let s := { s with showPreview := false }
  let s :=
    match s.previewUrl with
    | some u => { revokeUrl u s with previewUrl := none }
    | none => s
  { s with previewFile := none }

/-- The cleanup closure of the `useEffect` whose dependency array is
`[previewUrl]`: it captures the `previewUrl` value of the render it was
installed in and revokes it if non-null. React runs it when the
dependency changes — before re-running the effect — and on unmount. -/
def effectCleanup (capturedUrl : Option Nat) (s : PreviewState) : PreviewState :=
  match capturedUrl with
  | some u => revokeUrl u s
  | none => s

/-- The externally observable preview operations: the two handlers and
component teardown. -/
inductive PreviewEvent where
  | openPreview (f : FileRec)
  | closePreview
  | unmount
deriving DecidableEq, Repr

/-- One operation followed by React's effect bookkeeping: after a handler
runs, if `previewUrl` changed, the previously installed cleanup (which
captured the old `previewUrl`) runs before the effect is re-installed.
On unmount the installed cleanup runs with the current value. -/
def previewStep (s : PreviewState) : PreviewEvent → PreviewState
  | .openPreview f =>
      let s' := openPreviewBody f s
      if s'.previewUrl ≠ s.previewUrl then effectCleanup s.previewUrl s' else s'
  | .closePreview =>
      let s' := closePreviewBody s
      if s'.previewUrl ≠ s.previewUrl then effectCleanup s.previewUrl s' else s'
  | .unmount => effectCleanup s.previewUrl s

/-- Run a sequence of preview operations from the initial state. -/
def previewRun (events : List PreviewEvent) : PreviewState :=
  events.foldl previewStep previewInit

/-- The phone admission the spec states for the stripped value: only
digits, hyphens, plus signs and parentheses, and between 10 and 20
characters (the regex `^[\d\-+()]{10,20}$`, without the whitespace
class, which is vacuous on a whitespace-free string). -/
def phoneSpecMatch (s : String) : Bool :=
  decide (10 ≤ s.toList.length) && decide (s.toList.length ≤ 20) &&
  s.toList.all (fun c => c.isDigit || c = '-' || c = '+' || c = '(' || c = ')')

/-- The text portion of the multipart body as the spec lists it: each
field trimmed, `experience` passed through unchanged, and the mode tag. -/
def payloadSpecText (s : FormState) : List (String × PayloadValue) :=
  [("firstName", .str (jsTrim s.formData.firstName)),
   ("lastName", .str (jsTrim s.formData.lastName)),
   ("email", .str (jsTrim s.formData.email)),
   ("phone", .str (jsTrim s.formData.phone)),
   ("location", .str (jsTrim s.formData.location)),
   ("jobTitle", .str (jsTrim s.formData.jobTitle)),
   ("experience", .str s.formData.experience),
   ("skills", .str (jsTrim s.formData.skills)),
   ("summary", .str (jsTrim s.formData.summary)),
   ("uploadMode", .str (modeTag s.uploadMode))]

/-- Placeholder file used only to spell out list indexing with `getD`. -/
def defaultFile : FileRec := ⟨"", "", 0⟩

/-- Characters surviving `replace(/\s/g, "")` are not whitespace. -/
lemma stripJsWs_no_ws (v : String) :
    ∀ c ∈ (stripJsWs v).toList, jsWhitespace c = false := by
  intro c hc
  unfold stripJsWs at hc
  have : c ∈ v.toList.filter (fun c => !jsWhitespace c) := hc
  have := List.of_mem_filter this
  simpa using this

/-- On a whitespace-free character list the phone character class agrees
with its whitespace-free form. -/
lemma all_phoneCharOk_of_no_ws (l : List Char)
    (h : ∀ c ∈ l, jsWhitespace c = false) :
    l.all phoneCharOk =
      l.all (fun c => c.isDigit || c = '-' || c = '+' || c = '(' || c = ')') := by
  induction l with
  | nil => rfl
  | cons c cs ih =>
      have hc : jsWhitespace c = false := h c (by simp)
      have ih' := ih (fun x hx => h x (by simp [hx]))
      simp only [List.all_cons, ih']
      simp [phoneCharOk, hc]

/-- On a whitespace-free string the phone regex and the spec's
whitespace-free form of it agree. -/
lemma phoneRegexTest_eq_spec (s : String)
    (h : ∀ c ∈ s.toList, jsWhitespace c = false) :
    phoneRegexTest s = phoneSpecMatch s := by
  simp only [phoneRegexTest, phoneSpecMatch]
  rw [all_phoneCharOk_of_no_ws s.toList h]

/-- C5: a candidate file is admitted iff its MIME type is one of the
three whitelisted types and its size is at most 5 x 1024 x 1024 bytes;
a whitelisted file of exactly 5242880 bytes is admitted and one of
5242881 bytes is rejected. -/
theorem file_admission_iff (f : FileRec) :
    (isValidFileType f = true ↔
      ((f.type = "application/pdf" ∨ f.type = "application/msword" ∨
        f.type = "application/vnd.openxmlformats-officedocument.wordprocessingml.document") ∧
       f.size ≤ 5 * 1024 * 1024)) ∧
    isValidFileType ⟨"r.pdf", "application/pdf", 5242880⟩ = true ∧
    isValidFileType ⟨"r.pdf", "application/pdf", 5242881⟩ = false := by
  refine ⟨?_, by decide, by decide⟩
  simp only [isValidFileType, validTypes, List.contains_cons, List.contains_nil,
    Bool.or_false, Bool.and_eq_true, Bool.or_eq_true, beq_iff_eq,
    decide_eq_true_eq]

/-- C6: switching the upload mode drops both file cells and clears the
`resume` error while leaving the form fields, all other errors and the
touched set unchanged. -/
theorem mode_switch_resets_files (mode : UploadMode) (s : FormState) :
    (handleModeChange mode s).uploadMode = mode ∧
    (handleModeChange mode s).uploadedFile = none ∧
    (handleModeChange mode s).uploadedFiles = [] ∧
    (handleModeChange mode s).errors.resume = none ∧
    (handleModeChange mode s).formData = s.formData ∧
    (handleModeChange mode s).errors.firstName = s.errors.firstName ∧
    (handleModeChange mode s).errors.lastName = s.errors.lastName ∧
    (handleModeChange mode s).errors.email = s.errors.email ∧
    (handleModeChange mode s).errors.phone = s.errors.phone ∧
    (handleModeChange mode s).errors.location = s.errors.location ∧
    (handleModeChange mode s).errors.jobTitle = s.errors.jobTitle ∧
    (handleModeChange mode s).errors.experience = s.errors.experience ∧
    (handleModeChange mode s).errors.skills = s.errors.skills ∧
    (handleModeChange mode s).touched = s.touched ∧
    (handleModeChange mode s).isSubmitting = s.isSubmitting ∧
    (handleModeChange mode s).dragOver = s.dragOver := by
  repeat' constructor

/-- C7: the first-name rule (and likewise the last-name rule) passes iff
the value is nonempty after trimming and its length lies in [2, 50];
the value "A" produces the at-least-2-characters message and "Alice"
passes. -/
theorem name_length_validation (v : String) :
    (validateField "firstName" v = none ↔
      (jsTrim v ≠ "" ∧ 2 ≤ v.length ∧ v.length ≤ 50)) ∧
    (validateField "lastName" v = none ↔
      (jsTrim v ≠ "" ∧ 2 ≤ v.length ∧ v.length ≤ 50)) ∧
    validateField "firstName" "A" = some "First name must be at least 2 characters" ∧
    validateField "firstName" "Alice" = none := by
  refine ⟨?_, ?_, by decide, by decide⟩ <;>
  · by_cases h : jsTrim v = ""
    · simp [validateField, h]
    · simp only [validateField, h, if_false]
      split_ifs with h2 h3 <;> simp [h] <;> omega

/-- C8: the phone rule passes iff the value is nonempty after trimming
and the value with all whitespace stripped consists of 10 to 20
characters drawn from digits, hyphens, plus signs and parentheses. -/
theorem phone_validation (v : String) :
    validateField "phone" v = none ↔
      (jsTrim v ≠ "" ∧ phoneSpecMatch (stripJsWs v) = true) := by
  have hre := phoneRegexTest_eq_spec (stripJsWs v) (stripJsWs_no_ws v)
  by_cases h : jsTrim v = ""
  · simp [validateField, h]
  · simp only [validateField, h, if_false]
    split_ifs with h2
    · simp only [Bool.not_eq_true'] at h2
      simp [h, hre.symm, h2]
    · simp only [Bool.not_eq_true', Bool.not_eq_false] at h2
      simp [h, hre.symm, h2]

/-- Indices counted from `k` never hit a target below `k`, so the
index-difference filter keeps everything. -/
lemma filterWithIndex_keep_all (l : List FileRec) (k m : Nat) (h : m < k) :
    filterWithIndex (fun j _ => decide (j ≠ m)) l k = l := by
  induction l generalizing k with
  | nil => rfl
  | cons x xs ih =>
      have hk : decide (k ≠ m) = true := by simp; omega
      simp only [filterWithIndex]
      rw [if_pos hk, ih (k + 1) (by omega)]

/-- Filtering out index `m = k + i` from a list enumerated from `k`
removes exactly the element at position `i`. -/
lemma filterWithIndex_remove (l : List FileRec) (k i m : Nat) (hm : m = k + i)
    (h : i < l.length) :
    filterWithIndex (fun j _ => decide (j ≠ m)) l k =
      l.take i ++ l.drop (i + 1) := by
  induction l generalizing k i with
  | nil => simp at h
  | cons x xs ih =>
      cases i with
      | zero =>
          have hk : ¬ (decide (k ≠ m) = true) := by simp; omega
          simp only [filterWithIndex]
          rw [if_neg hk, filterWithIndex_keep_all xs (k + 1) m (by omega)]
          simp
      | succ j =>
          have hk : decide (k ≠ m) = true := by simp; omega
          have hlen : j < xs.length := by simpa using h
          simp only [filterWithIndex]
          rw [if_pos hk, ih (k + 1) j (by omega) hlen]
          simp

/-- C10: removing the bulk-list entry at a valid index deletes exactly
that element, keeping the order of the rest, and changes nothing else in
the controller state. -/
theorem remove_file_frame (s : FormState) (i : Nat)
    (h : i < s.uploadedFiles.length) :
    (removeFile i s).uploadedFiles =
      s.uploadedFiles.take i ++ s.uploadedFiles.drop (i + 1) ∧
    (removeFile i s).formData = s.formData ∧
    (removeFile i s).errors = s.errors ∧
    (removeFile i s).touched = s.touched ∧
    (removeFile i s).uploadedFile = s.uploadedFile ∧
    (removeFile i s).uploadMode = s.uploadMode ∧
    (removeFile i s).isSubmitting = s.isSubmitting ∧
    (removeFile i s).dragOver = s.dragOver := by
  have hmain := filterWithIndex_remove s.uploadedFiles 0 i i (by omega) h
  refine ⟨?_, rfl, rfl, rfl, rfl, rfl, rfl, rfl⟩
  simpa [removeFile] using hmain

/-- A concrete admissible PDF file. -/
def samplePdf : FileRec := ⟨"resume.pdf", "application/pdf", 1000⟩

/-- A concrete file rejected by the admission predicate (wrong type). -/
def sampleTxt : FileRec := ⟨"notes.txt", "text/plain", 1000⟩

/-- A concrete admissible legacy Word file. -/
def sampleDoc : FileRec := ⟨"cv.doc", "application/msword", 2000⟩

/-- Concrete field values that pass every validation rule. -/
def sampleFormData : FormData :=
  ⟨"Al", "Bo", "a@b.co", "1234567890", "NYC", "Dev", "1-3", "Lean, Coq", ""⟩

/-- A single-mode state that passes whole-form validation, with nothing
touched and no stored errors. -/
def sampleValidSingle : FormState :=
  ⟨false, false, some samplePdf, [], .single, noErrors, noTouched, sampleFormData⟩

/-- A bulk-mode state holding three files. -/
def sampleBulk : FormState :=
  ⟨false, false, none, [samplePdf, sampleDoc, samplePdf], .bulk, noErrors,
   noTouched, sampleFormData⟩

/-- C1: the resource-lifetime invariant fails on the code: opening a
preview and then closing it acquires display handle 0 once but calls
`revokeObjectURL` on it twice, because `closePreview` revokes it and the
`useEffect` whose dependency array is `[previewUrl]` runs its cleanup —
which revokes the captured URL again — as soon as `previewUrl` changes,
not only on unmount as its comment intends. -/
theorem preview_double_release :
    (previewRun [PreviewEvent.openPreview samplePdf,
                 PreviewEvent.closePreview]).acquired = [0] ∧
    (previewRun [PreviewEvent.openPreview samplePdf,
                 PreviewEvent.closePreview]).released = [0, 0] := by
  decide

/-- An error mapping that passes the emptiness test is the empty one. -/
lemma formErrorsEmpty_eq_noErrors (e : FormErrors)
    (h : formErrorsEmpty e = true) : e = noErrors := by
  cases e with
  | mk f1 f2 f3 f4 f5 f6 f7 f8 f9 =>
      simp only [formErrorsEmpty, Bool.and_eq_true,
        Option.isNone_iff_eq_none] at h
      simp_all [noErrors]

/-- C2 (amended): once whole-form validation passes, a successful
transport clears all fields, files, errors and touched state and returns
to Idle; a failed transport (or thrown error) keeps all field values and
files exactly as before and returns to Idle, but leaves every field
marked touched and the errors set to the freshly recomputed — empty —
error mapping rather than the pre-attempt one. -/
theorem submit_outcome (s : FormState)
    (h : formErrorsEmpty (computeFormErrors s) = true) :
    submitAttempt true s =
      { s with formData := emptyFormData, uploadedFile := none,
               uploadedFiles := [], errors := noErrors, touched := noTouched,
               isSubmitting := false } ∧
    submitAttempt false s =
      { s with touched := allTouched, errors := noErrors,
               isSubmitting := false } := by
  have he : computeFormErrors s = noErrors := formErrorsEmpty_eq_noErrors _ h
  have ht : formErrorsEmpty noErrors = true := by decide
  constructor <;>
    simp [submitAttempt, submitGate, resetAfterSuccess, h, he, ht]

/-- Witness for the amended C2 theorem at a concrete validation-passing
state, both transport outcomes. -/
theorem submit_outcome_witness :
    formErrorsEmpty (computeFormErrors sampleValidSingle) = true ∧
    (submitAttempt true sampleValidSingle =
      { sampleValidSingle with
          formData := emptyFormData,
          uploadedFile := none,
          uploadedFiles := [],
          errors := noErrors,
          touched := noTouched,
          isSubmitting := false } ∧
     submitAttempt false sampleValidSingle =
      { sampleValidSingle with
          touched := allTouched,
          errors := noErrors,
          isSubmitting := false }) :=
  ⟨by decide, submit_outcome sampleValidSingle (by decide)⟩

/-- Counterexample to C2 as stated: at a validation-passing state with an
untouched field, a failed transport does not leave the touched state as
it was — `handleSubmit` marks every field touched before validating. -/
theorem submit_failure_changes_touched :
    formErrorsEmpty (computeFormErrors sampleValidSingle) = true ∧
    (submitAttempt false sampleValidSingle).touched ≠
      sampleValidSingle.touched := by
  constructor
  · decide
  · decide

/-- The whole-form validation pass returns zero errors exactly when every
field rule (except `summary`) passes and the mode's file-presence check
holds. -/
lemma formErrorsEmpty_computeFormErrors_iff (s : FormState) :
    formErrorsEmpty (computeFormErrors s) = true ↔
      (validateField "firstName" s.formData.firstName = none ∧
       validateField "lastName" s.formData.lastName = none ∧
       validateField "email" s.formData.email = none ∧
       validateField "phone" s.formData.phone = none ∧
       validateField "location" s.formData.location = none ∧
       validateField "jobTitle" s.formData.jobTitle = none ∧
       validateField "experience" s.formData.experience = none ∧
       validateField "skills" s.formData.skills = none ∧
       (s.uploadMode = UploadMode.single → s.uploadedFile.isSome = true) ∧
       (s.uploadMode = UploadMode.bulk → s.uploadedFiles ≠ [])) := by
  cases hmode : s.uploadMode with
  | single =>
      cases hf : s.uploadedFile with
      | none =>
          simp [formErrorsEmpty, computeFormErrors, hasFiles, hmode, hf,
            Option.isNone_iff_eq_none, and_assoc]
      | some f =>
          simp [formErrorsEmpty, computeFormErrors, hasFiles, hmode, hf,
            Option.isNone_iff_eq_none, and_assoc]
  | bulk =>
      cases hf : s.uploadedFiles with
      | nil =>
          simp [formErrorsEmpty, computeFormErrors, hasFiles, hmode, hf,
            Option.isNone_iff_eq_none, and_assoc]
      | cons a l =>
          simp [formErrorsEmpty, computeFormErrors, hasFiles, hmode, hf,
            Option.isNone_iff_eq_none, and_assoc]

/-- C4: attempting submit first marks every field touched and stores the
freshly computed error mapping; the Submitting state is entered exactly
when every field rule (except `summary`) passes together with the
file-presence check — any failure keeps the machine in Idle. -/
theorem submit_validation_gate (s : FormState) (h : s.isSubmitting = false) :
    (submitGate s).1.touched = allTouched ∧
    (submitGate s).1.errors = computeFormErrors s ∧
    (submitGate s).1.isSubmitting = (submitGate s).2 ∧
    ((submitGate s).2 = true ↔
      (validateField "firstName" s.formData.firstName = none ∧
       validateField "lastName" s.formData.lastName = none ∧
       validateField "email" s.formData.email = none ∧
       validateField "phone" s.formData.phone = none ∧
       validateField "location" s.formData.location = none ∧
       validateField "jobTitle" s.formData.jobTitle = none ∧
       validateField "experience" s.formData.experience = none ∧
       validateField "skills" s.formData.skills = none ∧
       (s.uploadMode = UploadMode.single → s.uploadedFile.isSome = true) ∧
       (s.uploadMode = UploadMode.bulk → s.uploadedFiles ≠ []))) := by
  have hsel : (submitGate s).2 = formErrorsEmpty (computeFormErrors s) := by
    cases hc : formErrorsEmpty (computeFormErrors s) <;> simp [submitGate, hc]
  refine ⟨?_, ?_, ?_, ?_⟩
  · cases hc : formErrorsEmpty (computeFormErrors s) <;> simp [submitGate, hc]
  · cases hc : formErrorsEmpty (computeFormErrors s) <;> simp [submitGate, hc]
  · cases hc : formErrorsEmpty (computeFormErrors s) <;>
      simp [submitGate, hc, h]
  · rw [hsel]
    exact formErrorsEmpty_computeFormErrors_iff s

/-- Witness for the C4 theorem at a concrete Idle state that passes
validation. -/
theorem submit_validation_gate_witness :
    sampleValidSingle.isSubmitting = false ∧
    ((submitGate sampleValidSingle).1.touched = allTouched ∧
     (submitGate sampleValidSingle).1.errors =
        computeFormErrors sampleValidSingle ∧
     (submitGate sampleValidSingle).1.isSubmitting =
        (submitGate sampleValidSingle).2 ∧
     ((submitGate sampleValidSingle).2 = true ↔
       (validateField "firstName" sampleValidSingle.formData.firstName = none ∧
        validateField "lastName" sampleValidSingle.formData.lastName = none ∧
        validateField "email" sampleValidSingle.formData.email = none ∧
        validateField "phone" sampleValidSingle.formData.phone = none ∧
        validateField "location" sampleValidSingle.formData.location = none ∧
        validateField "jobTitle" sampleValidSingle.formData.jobTitle = none ∧
        validateField "experience" sampleValidSingle.formData.experience = none ∧
        validateField "skills" sampleValidSingle.formData.skills = none ∧
        (sampleValidSingle.uploadMode = UploadMode.single →
          sampleValidSingle.uploadedFile.isSome = true) ∧
        (sampleValidSingle.uploadMode = UploadMode.bulk →
          sampleValidSingle.uploadedFiles ≠ [])))) :=
  ⟨rfl, submit_validation_gate sampleValidSingle rfl⟩

/-- Witness for the C10 theorem: removing index 1 from a three-file bulk
list. -/
theorem remove_file_frame_witness :
    1 < sampleBulk.uploadedFiles.length ∧
    ((removeFile 1 sampleBulk).uploadedFiles =
        sampleBulk.uploadedFiles.take 1 ++ sampleBulk.uploadedFiles.drop (1 + 1) ∧
     (removeFile 1 sampleBulk).formData = sampleBulk.formData ∧
     (removeFile 1 sampleBulk).errors = sampleBulk.errors ∧
     (removeFile 1 sampleBulk).touched = sampleBulk.touched ∧
     (removeFile 1 sampleBulk).uploadedFile = sampleBulk.uploadedFile ∧
     (removeFile 1 sampleBulk).uploadMode = sampleBulk.uploadMode ∧
     (removeFile 1 sampleBulk).isSubmitting = sampleBulk.isSubmitting ∧
     (removeFile 1 sampleBulk).dragOver = sampleBulk.dragOver) :=
  ⟨by decide, remove_file_frame sampleBulk 1 (by decide)⟩

/-- Counterexample to C3 as stated: in Single mode a two-file batch whose
first file is admitted and whose second is not (K = 2, J = 1, so
K − J > 0) emits no rejection notice from either entry point — only the
first file is ever examined. -/
theorem batch_notice_counterexample :
    ([samplePdf, sampleTxt].filter isValidFileType).length <
      [samplePdf, sampleTxt].length ∧
    (handleFileSelect [samplePdf, sampleTxt] sampleValidSingle).2 = 0 ∧
    (handleDrop [samplePdf, sampleTxt] sampleValidSingle).2 = 0 := by
  decide

/-- C3 (amended): in Bulk mode exactly the admitted files are appended in
batch order, one aggregate notice is emitted iff some file was rejected,
and the resume error is cleared iff at least one file was admitted; in
Single mode only the first file of the batch is considered — it replaces
the singleton, with the resume error cleared, iff it is admitted, and
the rejection notice is emitted iff a first file exists and is not
admitted (the drop handler additionally notices on an empty batch);
rejected files never change the file state. -/
theorem batch_admission (batch : List FileRec) (s : FormState) :
    (s.uploadMode = UploadMode.bulk →
      ((handleDrop batch s).1.uploadedFiles =
          s.uploadedFiles ++ batch.filter isValidFileType ∧
       (handleFileSelect batch s).1.uploadedFiles =
          s.uploadedFiles ++ batch.filter isValidFileType ∧
       (handleDrop batch s).1.uploadedFile = s.uploadedFile ∧
       (handleFileSelect batch s).1.uploadedFile = s.uploadedFile ∧
       (handleDrop batch s).2 =
          (if (batch.filter isValidFileType).length < batch.length
           then 1 else 0) ∧
       (handleFileSelect batch s).2 =
          (if (batch.filter isValidFileType).length < batch.length
           then 1 else 0) ∧
       (handleDrop batch s).1.errors.resume =
          (if batch.filter isValidFileType = []
           then s.errors.resume else none) ∧
       (handleFileSelect batch s).1.errors.resume =
          (if batch.filter isValidFileType = []
           then s.errors.resume else none))) ∧
    (s.uploadMode = UploadMode.single →
      ((handleDrop batch s).1.uploadedFiles = s.uploadedFiles ∧
       (handleFileSelect batch s).1.uploadedFiles = s.uploadedFiles ∧
       (handleDrop batch s).1.uploadedFile =
          (match batch.head? with
           | some f => if isValidFileType f then some f else s.uploadedFile
           | none => s.uploadedFile) ∧
       (handleFileSelect batch s).1.uploadedFile =
          (match batch.head? with
           | some f => if isValidFileType f then some f else s.uploadedFile
           | none => s.uploadedFile) ∧
       (handleDrop batch s).2 =
          (match batch.head? with
           | some f => if isValidFileType f then 0 else 1
           | none => 1) ∧
       (handleFileSelect batch s).2 =
          (match batch.head? with
           | some f => if isValidFileType f then 0 else 1
           | none => 0) ∧
       (handleDrop batch s).1.errors.resume =
          (match batch.head? with
           | some f => if isValidFileType f then none else s.errors.resume
           | none => s.errors.resume) ∧
       (handleFileSelect batch s).1.errors.resume =
          (match batch.head? with
           | some f => if isValidFileType f then none else s.errors.resume
           | none => s.errors.resume))) := by
  constructor
  · intro hm
    have hle : (batch.filter isValidFileType).length ≤ batch.length :=
      List.length_filter_le _ _
    cases hv : batch.filter isValidFileType with
    | nil =>
        simp [handleDrop, handleFileSelect, hm, hv]
    | cons a l =>
        rw [hv] at hle
        simp [handleDrop, handleFileSelect, hm, hv]
  · intro hm
    cases batch with
    | nil =>
        simp [handleDrop, handleFileSelect, hm]
    | cons f rest =>
        by_cases hf : isValidFileType f <;>
          simp [handleDrop, handleFileSelect, hm, hf]

/-- Enumerating from `k` and building the indexed file entries is the
same as mapping over positions, with indices shifted by `k`. -/
lemma enumFrom_map_payload (l : List FileRec) (k : Nat) :
    (List.enumFrom k l).map
        (fun p => ("resume_" ++ toString p.1, PayloadValue.file p.2)) =
      (List.range l.length).map
        (fun i => ("resume_" ++ toString (k + i),
                   PayloadValue.file (l.getD i defaultFile))) := by
  induction l generalizing k with
  | nil => simp
  | cons x xs ih =>
      rw [List.length_cons, List.range_succ_eq_map]
      simp only [List.enumFrom, List.map_cons, List.map_map]
      rw [List.cons_eq_cons]
      refine ⟨by simp, ?_⟩
      rw [ih (k + 1)]
      congr 1
      funext i
      simp only [Function.comp_apply, List.getD_cons_succ]
      have harith : k + 1 + i = k + (i + 1) := by omega
      rw [harith]

/-- The indexed file entries of the payload, position by position. -/
lemma enum_map_payload (l : List FileRec) :
    l.enum.map (fun p => ("resume_" ++ toString p.1, PayloadValue.file p.2)) =
      (List.range l.length).map
        (fun i => ("resume_" ++ toString i,
                   PayloadValue.file (l.getD i defaultFile))) := by
  have h := enumFrom_map_payload l 0
  have he : l.enum = List.enumFrom 0 l := rfl
  rw [he, h]
  congr 1
  funext i
  rw [Nat.zero_add]

/-- C9: once submission reaches payload assembly (validation guarantees a
file in Single mode), the multipart body is the trimmed text fields with
`experience` passed through unchanged and the mode tag, followed in
Single mode by the one `resume` entry and in Bulk mode by the
`resume_0 .. resume_{n-1}` entries in list order plus `resumeCount`. -/
theorem payload_assembly (s : FormState)
    (h : s.uploadMode = UploadMode.single → s.uploadedFile.isSome = true) :
    (s.uploadMode = UploadMode.single →
      buildPayload s =
        payloadSpecText s ++
          [("resume", PayloadValue.file (s.uploadedFile.getD defaultFile))]) ∧
    (s.uploadMode = UploadMode.bulk →
      buildPayload s =
        payloadSpecText s ++
          (List.range s.uploadedFiles.length).map
            (fun i => ("resume_" ++ toString i,
                       PayloadValue.file (s.uploadedFiles.getD i defaultFile))) ++
          [("resumeCount", PayloadValue.str (toString s.uploadedFiles.length))]) := by
  constructor
  · intro hm
    obtain ⟨f, hf⟩ := Option.isSome_iff_exists.mp (h hm)
    simp [buildPayload, payloadSpecText, hm, hf]
  · intro hm
    cases hf : s.uploadedFile <;>
      simp [buildPayload, payloadSpecText, hm, hf, enum_map_payload]

/-- Witness for the C9 theorem at a concrete three-file bulk state. -/
theorem payload_assembly_witness :
    (sampleBulk.uploadMode = UploadMode.single →
      sampleBulk.uploadedFile.isSome = true) ∧
    ((sampleBulk.uploadMode = UploadMode.single →
      buildPayload sampleBulk =
        payloadSpecText sampleBulk ++
          [("resume",
            PayloadValue.file (sampleBulk.uploadedFile.getD defaultFile))]) ∧
     (sampleBulk.uploadMode = UploadMode.bulk →
      buildPayload sampleBulk =
        payloadSpecText sampleBulk ++
          (List.range sampleBulk.uploadedFiles.length).map
            (fun i => ("resume_" ++ toString i,
                       PayloadValue.file
                         (sampleBulk.uploadedFiles.getD i defaultFile))) ++
          [("resumeCount",
            PayloadValue.str (toString sampleBulk.uploadedFiles.length))])) :=
  ⟨by decide, payload_assembly sampleBulk (by decide)⟩
